import Mathlib

/-!
Shallow embedding of `src/galileo/src/layer/pmtiles.rs` (PMTiles support for
Galileo): the directory cache, the tile resolver (`PmtilesTileLoader::get_tile`),
and the raster/vector loader paths. External collaborators (the pmtiles crate's
archive reader, the gzip decoder, the MVT decoder, the platform image decoder)
are modelled as oracle parameters, following the interfaces the spec gives them.
-/

set_option autoImplicit false

/-- Modelled from the spec: `TileLoadError` (the vector-path error taxonomy,
declared in the vector tile provider loader module, which is not included under
`src/`); the spec gives exactly the variants `Network` and `Decoding`. -/
inductive TileLoadError where
  | Network
  | Decoding
deriving DecidableEq

/-- Modelled from the spec: `GalileoError` (the repository error type from
`src/galileo/src/error.rs`, not included under `src/`); the spec names the
`NotFound` outcome used by this module plus other generic failure kinds, which
we collapse into one catch-all variant. -/
inductive GalileoError where
  | NotFound
  | Other (msg : String)
deriving DecidableEq

/-- Modelled from the spec: `TileIndex` from `src/galileo/src/tile_schema.rs`,
not included under `src/`; the spec gives unsigned-integer fields `z`, `x`, `y`
with no inherent range constraint. -/
structure TileIndex where
  z : Nat
  x : Nat
  y : Nat

/-- Modelled from the spec: `TileCoord` from the external pmtiles crate, an
immutable validated compact coordinate. -/
structure TileCoord where
  z : Nat
  x : Nat
  y : Nat
deriving DecidableEq

/-- Modelled from the spec: `TileCoord::new` of the external pmtiles crate:
construction fails if `z` exceeds the supported zoom range (0 to 255) or if
`x`/`y` do not fit the per-zoom addressable range (`2 ^ z` tiles per axis).
The source calls it with `z` already truncated to `u8` and `x`, `y` to `u32`. -/
def TileCoord.new (z x y : Nat) : Option TileCoord :=
  if z < 256 ∧ x < 2 ^ z ∧ y < 2 ^ z then some ⟨z, x, y⟩ else none

/-- Modelled from the spec: `TileId` of the external pmtiles crate, the archive
lookup key a coordinate encodes to; opaque, modelled as a natural number. -/
abbrev TileId := Nat

/-- Modelled from the spec: a directory entry describes the tile's byte range
(offset plus length), run-length extended for contiguous identical tiles. -/
structure DirEntry where
  offset : Nat
  length : Nat
  run_length : Nat
deriving DecidableEq

/-- Modelled from the spec: `Directory` (a directory snapshot) of the external
pmtiles crate is opaque and immutable, supporting the single query
`find_tile_id` that returns an entry or nothing; we model it as that query
function itself. -/
def Directory := TileId → Option DirEntry

/-- Modelled from the spec: the single query a directory snapshot supports. -/
def Directory.find_tile_id (d : Directory) (t : TileId) : Option DirEntry := d t

/-- Modelled from the spec: `DirCacheResult` of the external pmtiles crate, the
three-way lookup result of the directory cache. -/
inductive DirCacheResult where
  | Found (entry : DirEntry)
  | NotFound
  | NotCached
deriving DecidableEq

/-- The map state inside `PmtilesDirCache`: the `HashMap<usize, Directory>`
behind the `Arc<RwLock<...>>`, modelled as a partial mapping from byte offset
to directory snapshot (absent keys map to `none`). -/
def PmtilesDirCache := Nat → Option Directory

/-- `PmtilesDirCache::new` / `Default`: the empty map. -/
def PmtilesDirCache.new : PmtilesDirCache := fun _ => none

/-- `PmtilesDirCache::get_dir_entry`: under the read lock, look the offset up in
the map; on a hit, query the snapshot with `find_tile_id` and return `Found` or
`NotFound`; on a miss return `NotCached`. -/
def PmtilesDirCache.get_dir_entry (c : PmtilesDirCache) (offset : Nat)
    (tile_id : TileId) : DirCacheResult :=
  match c offset with
  | some dir =>
    match dir.find_tile_id tile_id with
    | some entry => DirCacheResult.Found entry
    | none => DirCacheResult.NotFound
  | none => DirCacheResult.NotCached

/-- State-passing view of `PmtilesDirCache::get_dir_entry`: the method takes
`&self` and only acquires the read guard and calls `HashMap::get`, performing
no write, so the post-state of the underlying map is the pre-state. -/
def PmtilesDirCache.get_dir_entry_st (c : PmtilesDirCache) (offset : Nat)
    (tile_id : TileId) : DirCacheResult × PmtilesDirCache :=
  (c.get_dir_entry offset tile_id, c)

/-- `PmtilesDirCache::insert_dir`: under the write lock, `HashMap::insert`
stores or overwrites the snapshot at the offset. -/
def PmtilesDirCache.insert_dir (c : PmtilesDirCache) (offset : Nat)
    (directory : Directory) : PmtilesDirCache :=
  fun k => if k = offset then some directory else c k

/-- `PmtilesTileLoader::get_tile`: builds a `TileCoord` from the index (the
source truncates with `index.z as u8` and `index.x as u32` / `index.y as u32`,
modelled as `% 256` and `% 4294967296`), failing construction with `NotFound`;
then delegates to `self.reader.get_tile(coord)` — modelled by the `reader`
oracle, which may fail (transport or directory-decode error, the error value
opaque), return no tile, or return tile bytes — mapping any reader error to
`NotFound` and an empty result to `NotFound`. -/
def PmtilesTileLoader.get_tile (reader : TileCoord → Except String (Option (List Nat)))
    (index : TileIndex) : Except GalileoError (List Nat) :=
  match TileCoord.new (index.z % 256) (index.x % 4294967296) (index.y % 4294967296) with
  | none => Except.error GalileoError.NotFound
  | some coord =>
    match reader coord with
    | Except.error _ => Except.error GalileoError.NotFound
    | Except.ok none => Except.error GalileoError.NotFound
    | Except.ok (some bytes) => Except.ok bytes

/-- Whether `PmtilesTileLoader::get_tile` reaches the reader fetch: the early
return on coordinate construction failure is the only path that skips it. -/
def PmtilesTileLoader.contacts_reader (index : TileIndex) : Bool :=
  (TileCoord.new (index.z % 256) (index.x % 4294967296) (index.y % 4294967296)).isSome

/-- `RasterTileLoader::load` for `PmtilesTileLoader`: calls `get_tile` and hands
the bytes to `crate::platform::instance().decode_image` (modelled by the
`decode_image` oracle) with no further processing; a `get_tile` error
propagates via `?` unchanged. -/
def RasterTileLoader.load {α : Type}
    (reader : TileCoord → Except String (Option (List Nat)))
    (decode_image : List Nat → Except GalileoError α)
    (index : TileIndex) : Except GalileoError α :=
  match PmtilesTileLoader.get_tile reader index with
  | Except.error e => Except.error e
  | Except.ok bytes => decode_image bytes

/-- `VectorTileLoader::load` for `PmtilesTileLoader`: calls `get_tile`, mapping
any error to `TileLoadError::Network` (no log); if the payload has
`bytes.len() > 2` and its first two bytes equal the gzip magic `0x1F, 0x8B`, it
is gzip-decompressed (the `gunzip` oracle models `GzDecoder::read_to_end`, its
error carried as a string), a decompression failure being logged and mapped to
`TileLoadError::Decoding`; otherwise the bytes are used as-is. The result is
passed to `MvtTile::decode(bytes, false)` (the `decode` oracle, the `false`
format flag absorbed), a decode failure being logged and mapped to
`TileLoadError::Decoding`. The second component collects the `error!` log
lines emitted, in order. -/
def VectorTileLoader.load {α : Type}
    (reader : TileCoord → Except String (Option (List Nat)))
    (gunzip : List Nat → Except String (List Nat))
    (decode : List Nat → Except String α)
    (index : TileIndex) : Except TileLoadError α × List String :=
  match PmtilesTileLoader.get_tile reader index with
  | Except.error _ => (Except.error TileLoadError.Network, [])
  | Except.ok bytes =>
    match (if bytes.length > 2 ∧ bytes.take 2 = [0x1f, 0x8b] then
            match gunzip bytes with
            | Except.error e =>
              Except.error ("PMTiles: GZIP decompression error: " ++ e)
            | Except.ok dec => Except.ok dec
          else Except.ok bytes) with
    | Except.error log => (Except.error TileLoadError.Decoding, [log])
    | Except.ok dbytes =>
      match decode dbytes with
      | Except.ok tile => (Except.ok tile, [])
      | Except.error e =>
        (Except.error TileLoadError.Decoding,
          ["PMTiles: Vector tile decoding error: " ++ e])

/-- Claim C3: directory-cache lookup returns `NotCached` exactly when no
snapshot is stored for the offset, `NotFound` exactly when a snapshot is stored
but its find-entry query yields nothing for the coordinate, and `Found entry`
with the stored snapshot's entry otherwise. -/
theorem get_dir_entry_cases (c : PmtilesDirCache) (offset : Nat) (tile_id : TileId) :
    (c.get_dir_entry offset tile_id = DirCacheResult.NotCached ↔ c offset = none)
  ∧ (c.get_dir_entry offset tile_id = DirCacheResult.NotFound ↔
      ∃ dir, c offset = some dir ∧ dir.find_tile_id tile_id = none)
  ∧ (∀ entry, c.get_dir_entry offset tile_id = DirCacheResult.Found entry ↔
      ∃ dir, c offset = some dir ∧ dir.find_tile_id tile_id = some entry) := by
  unfold PmtilesDirCache.get_dir_entry
  rcases h : c offset with _ | dir
  · simp
  · rcases hf : dir.find_tile_id tile_id with _ | entry <;> simp [hf]

/-- Claim C3 witness: on the empty cache, lookup at offset 5 for tile id 7
returns `NotCached`, via the characterization theorem. -/
theorem get_dir_entry_cases_witness :
    PmtilesDirCache.new.get_dir_entry 5 7 = DirCacheResult.NotCached :=
  (get_dir_entry_cases PmtilesDirCache.new 5 7).1.mpr rfl

/-- Claim C4: lookup before any insert at the offset returns `NotCached`; after
an insert, lookup returns `Found` of the snapshot's entry when the snapshot
contains the coordinate and `NotFound` when it does not; insert stores or
overwrites unconditionally, so repeating the same insert is idempotent. -/
theorem cache_insert_lookup_spec (c : PmtilesDirCache) (offset : Nat)
    (d : Directory) (t : TileId) :
    (c offset = none → c.get_dir_entry offset t = DirCacheResult.NotCached)
  ∧ (∀ entry, d.find_tile_id t = some entry →
      (c.insert_dir offset d).get_dir_entry offset t = DirCacheResult.Found entry)
  ∧ (d.find_tile_id t = none →
      (c.insert_dir offset d).get_dir_entry offset t = DirCacheResult.NotFound)
  ∧ (c.insert_dir offset d).insert_dir offset d = c.insert_dir offset d := by
  refine ⟨?_, ?_, ?_, ?_⟩
  · intro h
    simp [PmtilesDirCache.get_dir_entry, h]
  · intro entry he
    simp [PmtilesDirCache.get_dir_entry, PmtilesDirCache.insert_dir, he]
  · intro he
    simp [PmtilesDirCache.get_dir_entry, PmtilesDirCache.insert_dir, he]
  · funext k
    by_cases hk : k = offset <;> simp [PmtilesDirCache.insert_dir, hk]

/-- Claim C4 witness: the spec's concrete scenario at offset 5 with a snapshot
holding an entry for tile id 7, via the insert-lookup theorem. -/
theorem cache_insert_lookup_spec_witness :
    PmtilesDirCache.new.get_dir_entry 5 7 = DirCacheResult.NotCached
  ∧ (PmtilesDirCache.new.insert_dir 5
      (fun t => if t = 7 then some ⟨1, 2, 1⟩ else none)).get_dir_entry 5 7 =
        DirCacheResult.Found ⟨1, 2, 1⟩
  ∧ (PmtilesDirCache.new.insert_dir 5
      (fun t => if t = 7 then some ⟨1, 2, 1⟩ else none)).get_dir_entry 5 8 =
        DirCacheResult.NotFound :=
  ⟨(cache_insert_lookup_spec PmtilesDirCache.new 5
      (fun t => if t = 7 then some ⟨1, 2, 1⟩ else none) 7).1 rfl,
   (cache_insert_lookup_spec PmtilesDirCache.new 5
      (fun t => if t = 7 then some ⟨1, 2, 1⟩ else none) 7).2.1 ⟨1, 2, 1⟩ rfl,
   (cache_insert_lookup_spec PmtilesDirCache.new 5
      (fun t => if t = 7 then some ⟨1, 2, 1⟩ else none) 8).2.2.1 rfl⟩

/-- Claim C9: a lookup leaves the cache mapping exactly as it was — the
state-passing view returns the pre-state unchanged, so a repeated lookup on the
post-state (at this or any other key) agrees with a lookup on the pre-state. -/
theorem get_dir_entry_frame (c : PmtilesDirCache) (offset : Nat) (t : TileId) :
    (c.get_dir_entry_st offset t).2 = c
  ∧ (∀ o2 t2, ((c.get_dir_entry_st offset t).2).get_dir_entry_st o2 t2 =
      c.get_dir_entry_st o2 t2)
  ∧ ((c.get_dir_entry_st offset t).2.get_dir_entry_st offset t).1 =
      (c.get_dir_entry_st offset t).1 :=
  ⟨rfl, fun _ _ => rfl, rfl⟩

/-- Claim C1 failing input, `TileIndex { z := 256, x := 0, y := 0 }`: the
source truncates the zoom with `index.z as u8`, so the coordinate constructs as
(0, 0, 0); the reader IS contacted and its tile bytes are returned, instead of
the claimed NotFound without any fetch. -/
theorem get_tile_z256_truncation :
    PmtilesTileLoader.get_tile (fun _ => Except.ok (some [7])) ⟨256, 0, 0⟩ =
      Except.ok [7]
  ∧ PmtilesTileLoader.contacts_reader ⟨256, 0, 0⟩ = true := by
  constructor <;> rfl

/-- Claim C6: once the coordinate constructs, any reader error and an explicit
empty result are both collapsed to `NotFound`; `get_tile` returns either the
reader's bytes or `NotFound`, never any other error. -/
theorem get_tile_error_collapse
    (reader : TileCoord → Except String (Option (List Nat))) (index : TileIndex) :
    (∀ coord,
      TileCoord.new (index.z % 256) (index.x % 4294967296) (index.y % 4294967296) =
          some coord →
        ((∀ e, reader coord = Except.error e →
            PmtilesTileLoader.get_tile reader index =
              Except.error GalileoError.NotFound)
      ∧ (reader coord = Except.ok none →
            PmtilesTileLoader.get_tile reader index =
              Except.error GalileoError.NotFound)
      ∧ (∀ bytes, reader coord = Except.ok (some bytes) →
            PmtilesTileLoader.get_tile reader index = Except.ok bytes)))
  ∧ (∀ e, PmtilesTileLoader.get_tile reader index = Except.error e →
      e = GalileoError.NotFound) := by
  constructor
  · intro coord hc
    refine ⟨?_, ?_, ?_⟩
    · intro e he
      simp [PmtilesTileLoader.get_tile, hc, he]
    · intro he
      simp [PmtilesTileLoader.get_tile, hc, he]
    · intro bytes hb
      simp [PmtilesTileLoader.get_tile, hc, hb]
  · intro e h
    unfold PmtilesTileLoader.get_tile at h
    split at h
    · exact (Except.error.inj h).symm
    · split at h
      · exact (Except.error.inj h).symm
      · exact (Except.error.inj h).symm
      · exact Except.noConfusion h

/-- Claim C6 witness: with a transport that fails and with a transport that
reports no such tile, `get_tile` at index (0, 0, 0) yields `NotFound`, via the
collapse theorem. -/
theorem get_tile_error_collapse_witness :
    PmtilesTileLoader.get_tile (fun _ => Except.error ("transport failure"))
      ⟨0, 0, 0⟩ = Except.error GalileoError.NotFound
  ∧ PmtilesTileLoader.get_tile (fun _ => Except.ok none) ⟨0, 0, 0⟩ =
      Except.error GalileoError.NotFound :=
  ⟨((get_tile_error_collapse (fun _ => Except.error ("transport failure"))
      ⟨0, 0, 0⟩).1 ⟨0, 0, 0⟩ rfl).1 ("transport failure") rfl,
   ((get_tile_error_collapse (fun _ => Except.ok none)
      ⟨0, 0, 0⟩).1 ⟨0, 0, 0⟩ rfl).2.1 rfl⟩

/-- Claim C7: the raster path hands the resolved bytes to the image decoder
byte-for-byte unmodified, with no compression detection or decompression, and a
resolver `NotFound` propagates unchanged to the caller. -/
theorem raster_load_passthrough {α : Type}
    (reader : TileCoord → Except String (Option (List Nat)))
    (decode_image : List Nat → Except GalileoError α) (index : TileIndex) :
    (∀ bytes, PmtilesTileLoader.get_tile reader index = Except.ok bytes →
        RasterTileLoader.load reader decode_image index = decode_image bytes)
  ∧ (PmtilesTileLoader.get_tile reader index = Except.error GalileoError.NotFound →
        RasterTileLoader.load reader decode_image index =
          Except.error GalileoError.NotFound) := by
  constructor
  · intro bytes hb
    simp [RasterTileLoader.load, hb]
  · intro he
    simp [RasterTileLoader.load, he]

/-- Claim C7 witness: gzip-magic-led raster bytes reach the image decoder
unmodified, and a failing transport surfaces as `NotFound`, via the
pass-through theorem with the identity image decoder. -/
theorem raster_load_passthrough_witness :
    RasterTileLoader.load (α := List Nat)
      (fun _ => Except.ok (some [0x1f, 0x8b, 1])) (fun b => Except.ok b)
      ⟨0, 0, 0⟩ = Except.ok [0x1f, 0x8b, 1]
  ∧ RasterTileLoader.load (α := List Nat)
      (fun _ => Except.error ("transport down")) (fun b => Except.ok b)
      ⟨0, 0, 0⟩ = Except.error GalileoError.NotFound :=
  ⟨(raster_load_passthrough (fun _ => Except.ok (some [0x1f, 0x8b, 1]))
      (fun b => Except.ok b) ⟨0, 0, 0⟩).1 [0x1f, 0x8b, 1] rfl,
   (raster_load_passthrough (fun _ => Except.error ("transport down"))
      (fun b => Except.ok b) ⟨0, 0, 0⟩).2 rfl⟩

/-- Claim C5: on the vector path any resolver failure yields `Network`; a gzip
decompression failure yields `Decoding`; a decoder failure — on the
decompressed bytes or on the pass-through bytes — yields `Decoding`; and
`Network` and `Decoding` are the only error outcomes. -/
theorem vector_load_error_taxonomy {α : Type}
    (reader : TileCoord → Except String (Option (List Nat)))
    (gunzip : List Nat → Except String (List Nat))
    (decode : List Nat → Except String α) (index : TileIndex) :
    (∀ e, PmtilesTileLoader.get_tile reader index = Except.error e →
        (VectorTileLoader.load reader gunzip decode index).1 =
          Except.error TileLoadError.Network)
  ∧ (∀ bytes e, PmtilesTileLoader.get_tile reader index = Except.ok bytes →
        bytes.length > 2 → bytes.take 2 = [0x1f, 0x8b] →
        gunzip bytes = Except.error e →
        (VectorTileLoader.load reader gunzip decode index).1 =
          Except.error TileLoadError.Decoding)
  ∧ (∀ bytes dec e, PmtilesTileLoader.get_tile reader index = Except.ok bytes →
        bytes.length > 2 → bytes.take 2 = [0x1f, 0x8b] →
        gunzip bytes = Except.ok dec → decode dec = Except.error e →
        (VectorTileLoader.load reader gunzip decode index).1 =
          Except.error TileLoadError.Decoding)
  ∧ (∀ bytes e, PmtilesTileLoader.get_tile reader index = Except.ok bytes →
        ¬(bytes.length > 2 ∧ bytes.take 2 = [0x1f, 0x8b]) →
        decode bytes = Except.error e →
        (VectorTileLoader.load reader gunzip decode index).1 =
          Except.error TileLoadError.Decoding)
  ∧ (∀ e, (VectorTileLoader.load reader gunzip decode index).1 = Except.error e →
        e = TileLoadError.Network ∨ e = TileLoadError.Decoding) := by
  refine ⟨?_, ?_, ?_, ?_, ?_⟩
  · intro e he
    simp [VectorTileLoader.load, he]
  · intro bytes e hb h1 h2 hg
    simp [VectorTileLoader.load, hb, h1, h2, hg]
  · intro bytes dec e hb h1 h2 hg hd
    simp [VectorTileLoader.load, hb, h1, h2, hg, hd]
  · intro bytes e hb hn hd
    simp [VectorTileLoader.load, hb, hn, hd]
  · intro e _
    cases e
    · exact Or.inl rfl
    · exact Or.inr rfl

/-- Claim C5 witness: concrete instances of each failure branch — failing
transport gives `Network`; corrupt gzip, failing decoder after decompression,
and failing decoder on pass-through bytes each give `Decoding` — via the
taxonomy theorem. -/
theorem vector_load_error_taxonomy_witness :
    (VectorTileLoader.load (α := List Nat)
        (fun _ => Except.error ("connection reset"))
        (fun b => Except.ok b) (fun b => Except.ok b) ⟨0, 0, 0⟩).1 =
      Except.error TileLoadError.Network
  ∧ (VectorTileLoader.load (α := List Nat)
        (fun _ => Except.ok (some [0x1f, 0x8b, 0]))
        (fun _ => Except.error ("corrupt gzip")) (fun b => Except.ok b)
        ⟨0, 0, 0⟩).1 = Except.error TileLoadError.Decoding
  ∧ (VectorTileLoader.load (α := List Nat)
        (fun _ => Except.ok (some [0x1f, 0x8b, 0]))
        (fun _ => Except.ok [5]) (fun _ => Except.error ("not mvt"))
        ⟨0, 0, 0⟩).1 = Except.error TileLoadError.Decoding
  ∧ (VectorTileLoader.load (α := List Nat)
        (fun _ => Except.ok (some [1, 2, 3]))
        (fun b => Except.ok b) (fun _ => Except.error ("not mvt"))
        ⟨0, 0, 0⟩).1 = Except.error TileLoadError.Decoding :=
  ⟨(vector_load_error_taxonomy (fun _ => Except.error ("connection reset"))
      (fun b => Except.ok b) (fun b => Except.ok b) ⟨0, 0, 0⟩).1
      GalileoError.NotFound rfl,
   (vector_load_error_taxonomy (fun _ => Except.ok (some [0x1f, 0x8b, 0]))
      (fun _ => Except.error ("corrupt gzip")) (fun b => Except.ok b)
      ⟨0, 0, 0⟩).2.1 [0x1f, 0x8b, 0] ("corrupt gzip") rfl (by decide) rfl rfl,
   (vector_load_error_taxonomy (fun _ => Except.ok (some [0x1f, 0x8b, 0]))
      (fun _ => Except.ok [5]) (fun _ => Except.error ("not mvt"))
      ⟨0, 0, 0⟩).2.2.1 [0x1f, 0x8b, 0] [5] ("not mvt") rfl (by decide) rfl rfl rfl,
   (vector_load_error_taxonomy (fun _ => Except.ok (some [1, 2, 3]))
      (fun b => Except.ok b) (fun _ => Except.error ("not mvt"))
      ⟨0, 0, 0⟩).2.2.2.1 [1, 2, 3] ("not mvt") rfl (by decide) rfl⟩

/-- Claim C2 counterexample: the payload of exactly two bytes `0x1F, 0x8B` is
NOT decompressed — with a gunzip oracle returning `[]` and a decoder echoing
its input, the vector path yields the original two magic bytes, not the
decompressed output the claim requires. -/
theorem two_byte_magic_not_decompressed :
    (VectorTileLoader.load (α := List Nat)
        (fun _ => Except.ok (some [0x1f, 0x8b]))
        (fun _ => Except.ok []) (fun b => Except.ok b) ⟨0, 0, 0⟩).1 =
      Except.ok [0x1f, 0x8b]
  ∧ (Except.ok [0x1f, 0x8b] : Except TileLoadError (List Nat)) ≠ Except.ok [] := by
  constructor
  · rfl
  · intro h
    exact absurd (Except.ok.inj h) (by decide)

/-- Claim C2 (amended): a successfully fetched payload of MORE than two bytes
beginning with the gzip magic `0x1F, 0x8B` is gzip-decompressed before being
passed to the vector-tile decoder; every other payload — one not beginning
with the magic, one with fewer than two bytes, and also one of exactly two
bytes equal to the magic — reaches the decoder unchanged. -/
theorem vector_dispatch_amended {α : Type}
    (reader : TileCoord → Except String (Option (List Nat)))
    (gunzip : List Nat → Except String (List Nat))
    (decode : List Nat → Except String α) (index : TileIndex)
    (bytes dec : List Nat) :
    (PmtilesTileLoader.get_tile reader index = Except.ok bytes →
      bytes.length > 2 → bytes.take 2 = [0x1f, 0x8b] →
      gunzip bytes = Except.ok dec →
      (VectorTileLoader.load reader gunzip decode index).1 =
        match decode dec with
        | Except.ok tile => Except.ok tile
        | Except.error _ => Except.error TileLoadError.Decoding)
  ∧ (PmtilesTileLoader.get_tile reader index = Except.ok bytes →
      ¬(bytes.length > 2 ∧ bytes.take 2 = [0x1f, 0x8b]) →
      (VectorTileLoader.load reader gunzip decode index).1 =
        match decode bytes with
        | Except.ok tile => Except.ok tile
        | Except.error _ => Except.error TileLoadError.Decoding) := by
  constructor
  · intro hb h1 h2 hg
    rcases hd : decode dec with e | t <;>
      simp [VectorTileLoader.load, hb, h1, h2, hg, hd]
  · intro hb hn
    rcases hd : decode bytes with e | t <;>
      simp [VectorTileLoader.load, hb, hn, hd]

/-- Claim C2 witness: a three-byte gzip-magic payload is decompressed (the
decoder sees the gunzip output `[5]`), while a two-byte non-magic payload
passes through unchanged, via the amended dispatch theorem. -/
theorem vector_dispatch_amended_witness :
    (VectorTileLoader.load (α := List Nat)
        (fun _ => Except.ok (some [0x1f, 0x8b, 0]))
        (fun _ => Except.ok [5]) (fun b => Except.ok b) ⟨0, 0, 0⟩).1 =
      Except.ok [5]
  ∧ (VectorTileLoader.load (α := List Nat)
        (fun _ => Except.ok (some [1, 2]))
        (fun _ => Except.ok [5]) (fun b => Except.ok b) ⟨0, 0, 0⟩).1 =
      Except.ok [1, 2] :=
  ⟨(vector_dispatch_amended (fun _ => Except.ok (some [0x1f, 0x8b, 0]))
      (fun _ => Except.ok [5]) (fun b => Except.ok b) ⟨0, 0, 0⟩
      [0x1f, 0x8b, 0] [5]).1 rfl (by decide) rfl rfl,
   (vector_dispatch_amended (fun _ => Except.ok (some [1, 2]))
      (fun _ => Except.ok [5]) (fun b => Except.ok b) ⟨0, 0, 0⟩
      [1, 2] [5]).2 rfl (by decide)⟩

/-- Claim C8 counterexample: on a resolver failure the `Network` branch emits
no log line at all — at a concrete failing transport the load result is
`(error Network, [])` with an empty log, refuting that every failure branch
logs the underlying cause. -/
theorem network_branch_logs_nothing :
    VectorTileLoader.load (α := List Nat)
      (fun _ => Except.error ("connection refused"))
      (fun b => Except.ok b) (fun b => Except.ok b) ⟨0, 0, 0⟩ =
      (Except.error TileLoadError.Network, ([] : List String)) := rfl

/-- Claim C8 (amended): the two `Decoding` branches — gzip decompression
failure and vector-tile decoder failure — log the underlying cause before
returning the coarse error, but the `Network` branch discards the resolver's
cause without logging anything. -/
theorem vector_load_logging {α : Type}
    (reader : TileCoord → Except String (Option (List Nat)))
    (gunzip : List Nat → Except String (List Nat))
    (decode : List Nat → Except String α) (index : TileIndex) :
    (∀ e, PmtilesTileLoader.get_tile reader index = Except.error e →
        VectorTileLoader.load reader gunzip decode index =
          (Except.error TileLoadError.Network, []))
  ∧ (∀ bytes e, PmtilesTileLoader.get_tile reader index = Except.ok bytes →
        bytes.length > 2 → bytes.take 2 = [0x1f, 0x8b] →
        gunzip bytes = Except.error e →
        VectorTileLoader.load reader gunzip decode index =
          (Except.error TileLoadError.Decoding,
            ["PMTiles: GZIP decompression error: " ++ e]))
  ∧ (∀ bytes dec e, PmtilesTileLoader.get_tile reader index = Except.ok bytes →
        bytes.length > 2 → bytes.take 2 = [0x1f, 0x8b] →
        gunzip bytes = Except.ok dec → decode dec = Except.error e →
        VectorTileLoader.load reader gunzip decode index =
          (Except.error TileLoadError.Decoding,
            ["PMTiles: Vector tile decoding error: " ++ e]))
  ∧ (∀ bytes e, PmtilesTileLoader.get_tile reader index = Except.ok bytes →
        ¬(bytes.length > 2 ∧ bytes.take 2 = [0x1f, 0x8b]) →
        decode bytes = Except.error e →
        VectorTileLoader.load reader gunzip decode index =
          (Except.error TileLoadError.Decoding,
            ["PMTiles: Vector tile decoding error: " ++ e])) := by
  refine ⟨?_, ?_, ?_, ?_⟩
  · intro e he
    simp [VectorTileLoader.load, he]
  · intro bytes e hb h1 h2 hg
    simp [VectorTileLoader.load, hb, h1, h2, hg]
  · intro bytes dec e hb h1 h2 hg hd
    simp [VectorTileLoader.load, hb, h1, h2, hg, hd]
  · intro bytes e hb hn hd
    simp [VectorTileLoader.load, hb, hn, hd]

/-- Claim C8 witness: a corrupt gzip payload logs the decompression cause, and
a non-decodable pass-through payload logs the decoder cause, via the logging
theorem. -/
theorem vector_load_logging_witness :
    VectorTileLoader.load (α := List Nat)
      (fun _ => Except.ok (some [0x1f, 0x8b, 0]))
      (fun _ => Except.error ("corrupt gzip")) (fun b => Except.ok b)
      ⟨0, 0, 0⟩ =
      (Except.error TileLoadError.Decoding,
        ["PMTiles: GZIP decompression error: " ++ "corrupt gzip"])
  ∧ VectorTileLoader.load (α := List Nat)
      (fun _ => Except.ok (some [9]))
      (fun b => Except.ok b) (fun _ => Except.error ("not mvt"))
      ⟨0, 0, 0⟩ =
      (Except.error TileLoadError.Decoding,
        ["PMTiles: Vector tile decoding error: " ++ "not mvt"]) :=
  ⟨(vector_load_logging (fun _ => Except.ok (some [0x1f, 0x8b, 0]))
      (fun _ => Except.error ("corrupt gzip")) (fun b => Except.ok b)
      ⟨0, 0, 0⟩).2.1 [0x1f, 0x8b, 0] ("corrupt gzip") rfl (by decide) rfl rfl,
   (vector_load_logging (fun _ => Except.ok (some [9]))
      (fun b => Except.ok b) (fun _ => Except.error ("not mvt"))
      ⟨0, 0, 0⟩).2.2.2 [9] ("not mvt") rfl (by decide) rfl⟩
